import Mathlib

/-!
Verification of the Minecraft Autodonate backend (src/main.py, src/schemas.py).

The document store is modelled as explicit state: each collection is an
association list from the document's object-id string to the document.
Monetary values are rationals (ℚ); Python's `round(x, 2)` is modelled as
round-half-to-even (banker's rounding) at two decimal places, which is
Python 3's rounding mode. Object ids are 24-character hex strings, the
string form accepted by `bson.ObjectId`; id comparison is case-insensitive
on the hex digits, so lookups normalise to lower case (the canonical form
`str(ObjectId(...))` produces).
-/

namespace Autodonate

/-- Python's `str.upper`, character-wise (the strings involved are ASCII). -/
def pyUpper (s : String) : String := String.mk (s.data.map Char.toUpper)

/-- Python's `str.lower`, character-wise. -/
def pyLower (s : String) : String := String.mk (s.data.map Char.toLower)

/-- A hexadecimal digit, as accepted inside a BSON ObjectId string. -/
def isHexDigit (c : Char) : Bool :=
  c.isDigit || (('a' ≤ c) && (c ≤ 'f')) || (('A' ≤ c) && (c ≤ 'F'))

/-- Parsing `ObjectId(s)` succeeds exactly when `s` is a 24-character hex string.
Mirrors the `try: ObjectId(...) except:` pattern in `main.py`. -/
def isValidObjectId (s : String) : Bool :=
  s.length == 24 && s.toList.all isHexDigit

/-- Canonical form of an object id: `str(ObjectId(s))` lower-cases hex. -/
def normId (s : String) : String := pyLower s

/-- Payment status of an order (schemas.py, `Order.status`:
`Literal["pending", "paid", "failed"]`). -/
inductive PayStatus where
  | pending
  | paid
  | failed
deriving DecidableEq, Repr

/-- A donation rank document (schemas.py, `class Rank`). -/
structure Rank where
  name : String
  description : String
  price : ℚ
  color : String
  perks : List String
  popular : Bool
  icon : Option String
deriving DecidableEq, Repr

/-- A promo-code document (schemas.py, `class Promo`). -/
structure Promo where
  code : String
  discount_percent : ℚ
  active : Bool
deriving DecidableEq, Repr

/-- An embedded order line item (schemas.py, `class OrderItem`). -/
structure OrderItem where
  rank_id : String
  quantity : ℕ
  price : ℚ
deriving DecidableEq, Repr

/-- An order document (schemas.py, `class Order`). -/
structure Order where
  player : String
  items : List OrderItem
  amount : ℚ
  currency : String
  status : PayStatus
  email : Option String
  server : Option String
  promo_code : Option String
deriving DecidableEq, Repr

/-- A cart entry of an order-creation request (main.py, `class CartItem`). -/
structure CartItem where
  rank_id : String
  quantity : ℕ
deriving DecidableEq, Repr

/-- The body of `POST /api/orders` (main.py, `class CreateOrder`). -/
structure CreateOrder where
  player : String
  items : List CartItem
  email : Option String
  server : Option String
  promo_code : Option String
deriving DecidableEq, Repr

/-- The two error classes the endpoints raise (`HTTPException` with
detail): status 400 for invalid input, 404 for a missing document. -/
inductive ApiError where
  | invalidInput (detail : String)
  | notFound (detail : String)
deriving DecidableEq, Repr

/-- The HTTP status code each error is surfaced with. -/
def ApiError.statusCode : ApiError → ℕ
  | .invalidInput _ => 400
  | .notFound _ => 404

/-- The document store: the three collections `rank`, `promo`, `order`.
Ranks and orders are keyed by their object-id string (canonical lower-case
hex); promos are queried by their `code` field, so no key is needed. -/
structure Store where
  ranks : List (String × Rank)
  promos : List Promo
  orders : List (String × Order)
deriving DecidableEq, Repr

/-- The store with no documents. -/
def emptyStore : Store := ⟨[], [], []⟩

/-- Lookup `db["rank"].find_one({"_id": ObjectId(id)})`, including the
`try/except` that turns a malformed id into a miss (main.py lines
226-229). Returns the whole entry so the caller can use the canonical
`str(rank["_id"])`. -/
def findRankEntry (s : Store) (id : String) : Option (String × Rank) :=
  if isValidObjectId id then s.ranks.find? (fun p => p.1 == normId id) else none

/-- Lookup `db["promo"].find_one({"code": c, "active": True})`. -/
def findActivePromo (s : Store) (c : String) : Option Promo :=
  s.promos.find? (fun p => p.code == c && p.active)

/-- Round-half-to-even to an integer (Python 3 `round` on a tie picks the
even neighbour). -/
def roundHalfEven (q : ℚ) : ℤ :=
  let f : ℤ := ⌊q⌋
  let r : ℚ := q - f
  if r < 1 / 2 then f
  else if 1 / 2 < r then f + 1
  else if f % 2 = 0 then f else f + 1

/-- Python's `round(x, 2)`: round half-to-even at two decimal places. -/
def round2 (q : ℚ) : ℚ := (roundHalfEven (100 * q) : ℚ) / 100

/-- The pricing loop of `create_order` (main.py lines 223-234): resolve
each cart entry to a stored rank, snapshot its price, and accumulate
`price * quantity` in cart order; the first unresolved rank aborts with
a 404. -/
def priceItems (s : Store) : List CartItem → Except ApiError (List OrderItem × ℚ)
  | [] => .ok ([], 0)
  | it :: rest =>
    match findRankEntry s it.rank_id with
    | none => .error (.notFound ("Rank not found: " ++ it.rank_id))
    | some entry =>
      match priceItems s rest with
      | .error e => .error e
      | .ok (items, total) =>
        .ok ({ rank_id := entry.1, quantity := it.quantity, price := entry.2.price } :: items,
             entry.2.price * (it.quantity : ℚ) + total)

/-- Endpoint `POST /api/orders` (main.py, `create_order`). `newId` is the object id
the store assigns to the inserted document. The Python truthiness test
`if payload.promo_code:` treats both `None` and `""` as absent. On
failure the store is returned unchanged (the insert is the last step). -/
def create_order (s : Store) (newId : String) (payload : CreateOrder) :
    Except ApiError Order × Store :=
  if payload.items.isEmpty then (.error (.invalidInput "Cart is empty"), s)
  else
    match priceItems s payload.items with
    | .error e => (.error e, s)
    | .ok (items, total0) =>
      let promoStep : Except ApiError (ℚ × Option String) :=
        match payload.promo_code with
        | none => .ok (total0, none)
        | some c =>
          if c = "" then .ok (total0, none)
          else
            match findActivePromo s (pyUpper c) with
            | some promo =>
              .ok (round2 (total0 * (1 - promo.discount_percent / 100)), some (pyUpper c))
            | none => .error (.notFound "Promo not found or inactive")
      match promoStep with
      | .error e => (.error e, s)
      | .ok (amount, appliedCode) =>
        let order : Order :=
          { player := payload.player, items := items, amount := amount,
            currency := "RUB", status := .pending, email := payload.email,
            server := payload.server, promo_code := appliedCode }
        (.ok order, { s with orders := s.orders ++ [(newId, order)] })

/-- The `{"$set": {"status": "paid"}}` update applied by `simulate_pay`. -/
def paySet (o : Order) : Order := { o with status := .paid }

/-- Update `find_one_and_update` on the `order` collection: update the first
entry whose key matches, returning the post-update document and the
updated collection. -/
def findOneAndUpdateOrder (f : Order → Order) (key : String) :
    List (String × Order) → Option Order × List (String × Order)
  | [] => (none, [])
  | (k, o) :: t =>
    if k = key then (some (f o), (k, f o) :: t)
    else
      let r := findOneAndUpdateOrder f key t
      (r.1, (k, o) :: r.2)

/-- Endpoint `POST /api/orders/{order_id}/pay` (main.py, `simulate_pay`): 400 on a
malformed id, otherwise an atomic find-and-set of `status` to `paid`,
404 when no order matches. -/
def simulate_pay (s : Store) (order_id : String) : Except ApiError Order × Store :=
  if !isValidObjectId order_id then (.error (.invalidInput "Invalid order id"), s)
  else
    let r := findOneAndUpdateOrder paySet (normId order_id) s.orders
    match r.1 with
    | none => (.error (.notFound "Order not found"), { s with orders := r.2 })
    | some o => (.ok o, { s with orders := r.2 })

/-- Lookup `find_one` on the `order` collection by object id. -/
def lookupOrder (s : Store) (id : String) : Option Order :=
  (s.orders.find? (fun p => p.1 == normId id)).map (·.2)

/-- The first seeded rank (main.py lines 153-165). -/
def rankVIP : Rank :=
  { name := "VIP", description := "Стартовый донат с базовыми привилегиями",
    price := 149, color := "#b45309",
    perks := ["/kit vip", "+2 сетхомы", "Ежедневный бонус"],
    popular := false, icon := some "Star" }

/-- The second seeded rank (main.py lines 166-178). -/
def rankPremium : Rank :=
  { name := "Premium", description := "Расширенные возможности и бонусы",
    price := 299, color := "#d97706",
    perks := ["/repair", "+5 сетхомов", "Цветной чат"],
    popular := true, icon := some "Crown" }

/-- The third seeded rank (main.py lines 179-191). -/
def rankDeluxe : Rank :=
  { name := "Deluxe", description := "Максимальные привилегии для истинных ценителей",
    price := 599, color := "#f59e0b",
    perks := ["/fly", "+10 сетхомов", "Эффекты и частицы"],
    popular := false, icon := some "Gem" }

/-- The three ranks `seed_ranks` inserts (main.py lines 152-192). -/
def defaultRanks : List Rank := [rankVIP, rankPremium, rankDeluxe]

/-- The promo `seed_ranks` inserts when no `START` promo exists. -/
def startPromo : Promo := { code := "START", discount_percent := 10, active := true }

/-- Endpoint `POST /api/ranks/seed` (main.py, `seed_ranks`): a no-op when any rank
exists; otherwise insert the three default ranks (with store-assigned ids
`id1 id2 id3`) and, when no promo with code `START` exists, the demo
promo. -/
def seed_ranks (s : Store) (id1 id2 id3 : String) : Store × String :=
  if s.ranks.length > 0 then (s, "Ranks already exist")
  else
    let ids := [id1, id2, id3]
    let s1 : Store := { s with ranks := s.ranks ++ ids.zip defaultRanks }
    let s2 : Store :=
      if (s1.promos.filter (fun p => p.code == "START")).length == 0 then
        { s1 with promos := s1.promos ++ [startPromo] }
      else s1
    (s2, "Seeded")

/-- Endpoint `POST /api/promos` (main.py, `create_promo`): insert the payload as
given — note the code is stored exactly as supplied, with no case
normalisation. -/
def create_promo (s : Store) (payload : Promo) : Store × Promo :=
  ({ s with promos := s.promos ++ [payload] }, payload)

/-- Endpoint `GET /api/promos/{code}` (main.py, `get_promo`): look the code up
upper-cased, 404 when absent. -/
def get_promo (s : Store) (code : String) : Except ApiError Promo :=
  match s.promos.find? (fun p => p.code == pyUpper code) with
  | some p => .ok p
  | none => .error (.notFound "Promo not found")

/-- The undiscounted cart total as stated by the spec: the sum, in cart
order, of stored-rank price times quantity (0 for an unresolved entry;
the claims only use it when every entry resolves). -/
def cartSum (s : Store) (items : List CartItem) : ℚ :=
  (items.map (fun it =>
    (match findRankEntry s it.rank_id with
     | some entry => entry.2.price
     | none => 0) * (it.quantity : ℚ))).sum

end Autodonate

deriving instance DecidableEq for Except

namespace Autodonate

/-! ### Concrete fixtures used by witnesses and counterexamples -/

/-- A valid object id (24 hex chars) for a rank priced 149. -/
def idA : String := "aaaaaaaaaaaaaaaaaaaaaaaa"

/-- A valid object id for a rank priced 299. -/
def idB : String := "bbbbbbbbbbbbbbbbbbbbbbbb"

/-- A valid object id used for inserted orders. -/
def idO : String := "cccccccccccccccccccccccc"

/-- A rank priced 149 (the spec's rank `A`). -/
def rankA : Rank :=
  { name := "A", description := "a", price := 149, color := "#b45309",
    perks := [], popular := false, icon := none }

/-- A rank priced 299 (the spec's rank `B`). -/
def rankB : Rank :=
  { name := "B", description := "b", price := 299, color := "#d97706",
    perks := [], popular := false, icon := none }

/-- A store holding ranks A and B and the active 10% `START` promo. -/
def wStore : Store := ⟨[(idA, rankA), (idB, rankB)], [startPromo], []⟩

/-- The spec's example cart `[{A, qty=2}, {B, qty=1}]`. -/
def cart1 : List CartItem := [⟨idA, 2⟩, ⟨idB, 1⟩]

/-- An order-creation request with the example cart and no promo code. -/
def payload1 : CreateOrder := ⟨"Steve", cart1, none, none, none⟩

/-- The same request with promo code `start` (lower-case casing of `START`). -/
def payload2 : CreateOrder := ⟨"Steve", cart1, none, none, some "start"⟩

/-! ### Helper lemmas -/

lemma isEmpty_false_of_ne_nil {α : Type} (l : List α) (h : l ≠ []) :
    l.isEmpty = false := by
  cases l with
  | nil => exact absurd rfl h
  | cons a t => rfl

lemma cartSum_nil (s : Store) : cartSum s [] = 0 := rfl

lemma cartSum_cons (s : Store) (it : CartItem) (rest : List CartItem) :
    cartSum s (it :: rest) =
      (match findRankEntry s it.rank_id with
       | some entry => entry.2.price
       | none => 0) * (it.quantity : ℚ) + cartSum s rest := by
  simp [cartSum]

lemma priceItems_ok (s : Store) (items : List CartItem)
    (h : ∀ it ∈ items, (findRankEntry s it.rank_id).isSome = true) :
    ∃ l, priceItems s items = .ok (l, cartSum s items) := by
  induction items with
  | nil => exact ⟨[], rfl⟩
  | cons it rest ih =>
    obtain ⟨entry, hentry⟩ := Option.isSome_iff_exists.mp (h it (by simp))
    obtain ⟨l, hl⟩ := ih (fun x hx => h x (by simp [hx]))
    refine ⟨{ rank_id := entry.1, quantity := it.quantity, price := entry.2.price } :: l, ?_⟩
    rw [cartSum_cons, hentry]
    simp [priceItems, hentry, hl]

lemma priceItems_error_notFound (s : Store) (items : List CartItem)
    (e : ApiError) (h : priceItems s items = .error e) : ∃ d, e = .notFound d := by
  induction items with
  | nil => simp [priceItems] at h
  | cons it rest ih =>
    cases hf : findRankEntry s it.rank_id with
    | none =>
      simp only [priceItems, hf] at h
      exact ⟨_, ((Except.error.injEq _ _).mp h).symm⟩
    | some entry =>
      cases hp : priceItems s rest with
      | error e' =>
        simp only [priceItems, hf, hp] at h
        obtain ⟨d, hd⟩ := ih (by rw [hp, ((Except.error.injEq _ _).mp h)])
        exact ⟨d, hd⟩
      | ok pr => simp [priceItems, hf, hp] at h

lemma priceItems_err_of_unresolved (s : Store) (items : List CartItem)
    (h : ∃ it ∈ items, findRankEntry s it.rank_id = none) :
    ∃ d, priceItems s items = .error (.notFound d) := by
  induction items with
  | nil => simp at h
  | cons it rest ih =>
    cases hf : findRankEntry s it.rank_id with
    | none => exact ⟨_, by rw [priceItems, hf]⟩
    | some entry =>
      obtain ⟨x, hx, hnone⟩ := h
      rcases List.mem_cons.mp hx with hxe | hxr
      · exact absurd hnone (by rw [hxe, hf]; simp)
      · obtain ⟨d, hd⟩ := ih ⟨x, hxr, hnone⟩
        exact ⟨d, by rw [priceItems, hf, hd]⟩

lemma find?_map_decomp (l : List (String × Order)) (key : String) (o : Order)
    (h : (l.find? (fun p => p.1 == key)).map (·.2) = some o) :
    ∃ l1 l2, l = l1 ++ (key, o) :: l2 ∧ ∀ p ∈ l1, p.1 ≠ key := by
  induction l with
  | nil => simp at h
  | cons hd t ih =>
    obtain ⟨k, o'⟩ := hd
    by_cases hk : k = key
    · subst hk
      have hfind : ((k, o') :: t).find? (fun p => p.1 == k) = some (k, o') := by
        rw [List.find?_cons_of_pos]
        exact beq_self_eq_true k
      rw [hfind] at h
      simp only [Option.map_some'] at h
      obtain rfl : o' = o := by injection h
      exact ⟨[], t, rfl, by simp⟩
    · have hfind : ((k, o') :: t).find? (fun p => p.1 == key) =
          t.find? (fun p => p.1 == key) := by
        rw [List.find?_cons_of_neg]
        simp [hk]
      rw [hfind] at h
      obtain ⟨l1, l2, hl, hne⟩ := ih h
      refine ⟨(k, o') :: l1, l2, by rw [hl]; rfl, fun p hp => ?_⟩
      rcases List.mem_cons.mp hp with he | hm
      · rw [he]; exact hk
      · exact hne p hm

lemma fOAU_cons_match (f : Order → Order) (key : String) (o : Order)
    (t : List (String × Order)) :
    findOneAndUpdateOrder f key ((key, o) :: t) = (some (f o), (key, f o) :: t) := by
  simp [findOneAndUpdateOrder]

lemma fOAU_append_no_match (f : Order → Order) (key : String)
    (l1 rest : List (String × Order)) (h : ∀ p ∈ l1, p.1 ≠ key) :
    findOneAndUpdateOrder f key (l1 ++ rest) =
      ((findOneAndUpdateOrder f key rest).1, l1 ++ (findOneAndUpdateOrder f key rest).2) := by
  induction l1 with
  | nil => simp [findOneAndUpdateOrder]
  | cons hd t ih =>
    have hne : hd.1 ≠ key := h hd (by simp)
    obtain ⟨k, o⟩ := hd
    simp only [List.cons_append]
    rw [findOneAndUpdateOrder, if_neg hne, ih (fun p hp => h p (by simp [hp]))]

lemma fOAU_none_of_find_none (f : Order → Order) (key : String)
    (l : List (String × Order)) (h : l.find? (fun p => p.1 == key) = none) :
    findOneAndUpdateOrder f key l = (none, l) := by
  induction l with
  | nil => rfl
  | cons hd t ih =>
    obtain ⟨k, o⟩ := hd
    rw [List.find?_cons] at h
    by_cases hk : k = key
    · subst hk
      simp at h
    · have hb : ((k, o).1 == key) = false := by simpa using hk
      rw [hb] at h
      rw [findOneAndUpdateOrder, if_neg hk, ih h]

lemma paySet_idem (o : Order) : paySet (paySet o) = paySet o := rfl

lemma find?_append_no_match (key : String) (l1 rest : List (String × Order))
    (h : ∀ p ∈ l1, p.1 ≠ key) :
    (l1 ++ rest).find? (fun p => p.1 == key) = rest.find? (fun p => p.1 == key) := by
  induction l1 with
  | nil => rfl
  | cons hd t ih =>
    have hb : (hd.1 == key) = false := by simpa using h hd (by simp)
    rw [List.cons_append, List.find?_cons, hb, ih (fun p hp => h p (by simp [hp]))]

lemma cartSum_w : cartSum wStore cart1 = 597 := by
  have hA : findRankEntry wStore idA = some (idA, rankA) := by decide
  have hB : findRankEntry wStore idB = some (idB, rankB) := by decide
  rw [cart1, cartSum_cons, cartSum_cons, cartSum_nil]
  simp only [hA, hB]
  norm_num [rankA, rankB]

/-! ### Claim theorems -/

/-- C1: with a non-empty cart in which every rank id resolves and no promo
code, the created order's amount is the sum, in cart order, of stored rank
price times quantity, with no rounding applied. -/
theorem create_order_no_promo_amount (s : Store) (newId : String) (payload : CreateOrder)
    (hne : payload.items ≠ [])
    (hres : ∀ it ∈ payload.items, (findRankEntry s it.rank_id).isSome = true)
    (hp : payload.promo_code = none) :
    ∃ o, (create_order s newId payload).1 = Except.ok o ∧
      o.amount = cartSum s payload.items := by
  obtain ⟨l, hl⟩ := priceItems_ok s payload.items hres
  have he : payload.items.isEmpty = false := isEmpty_false_of_ne_nil _ hne
  simp only [create_order, he, Bool.false_eq_true, if_false, hl, hp]
  exact ⟨_, rfl, rfl⟩

/-- C1 witness: ranks priced 149 and 299, cart `[{A, qty 2}, {B, qty 1}]`,
no promo: the amount is 597. -/
theorem create_order_no_promo_amount_witness :
    ∃ o, (create_order wStore idO payload1).1 = Except.ok o ∧ o.amount = 597 := by
  obtain ⟨o, h1, h2⟩ :=
    create_order_no_promo_amount wStore idO payload1 (by decide) (by decide) rfl
  exact ⟨o, h1, by rw [h2]; exact cartSum_w⟩

/-- C2: with a promo code matching a stored active promo, the created
order's amount is the undiscounted total times `1 - discount_percent/100`,
rounded to two decimal places. -/
theorem create_order_promo_amount (s : Store) (newId : String) (payload : CreateOrder)
    (c : String) (promo : Promo)
    (hne : payload.items ≠ [])
    (hres : ∀ it ∈ payload.items, (findRankEntry s it.rank_id).isSome = true)
    (hp : payload.promo_code = some c) (hc : c ≠ "")
    (hfind : findActivePromo s (pyUpper c) = some promo) :
    ∃ o, (create_order s newId payload).1 = Except.ok o ∧
      o.amount = round2 (cartSum s payload.items * (1 - promo.discount_percent / 100)) := by
  obtain ⟨l, hl⟩ := priceItems_ok s payload.items hres
  have he : payload.items.isEmpty = false := isEmpty_false_of_ne_nil _ hne
  simp only [create_order, he, Bool.false_eq_true, if_false, hl, hp, if_neg hc, hfind]
  exact ⟨_, rfl, rfl⟩

/-- C2 witness: the 597 cart with the active 10% promo `START` (supplied
as `start`) yields amount 537.30. -/
theorem create_order_promo_amount_witness :
    ∃ o, (create_order wStore idO payload2).1 = Except.ok o ∧ o.amount = 5373 / 10 := by
  obtain ⟨o, h1, h2⟩ :=
    create_order_promo_amount wStore idO payload2 "start" startPromo
      (by decide) (by decide) rfl (by decide) (by decide)
  refine ⟨o, h1, ?_⟩
  rw [h2]
  have hc : cartSum wStore payload2.items = 597 := cartSum_w
  rw [hc]
  norm_num [startPromo, round2, roundHalfEven]

/-- C3: an order-creation request with an empty items list fails with
InvalidInput (HTTP 400) and leaves the store unchanged, for any player,
email, server, and promo-code values. -/
theorem create_order_empty_cart (s : Store) (newId : String) (payload : CreateOrder)
    (h : payload.items = []) :
    create_order s newId payload = (.error (.invalidInput "Cart is empty"), s) ∧
      (ApiError.invalidInput "Cart is empty").statusCode = 400 := by
  refine ⟨?_, rfl⟩
  simp [create_order, h]

/-- C3 witness: an empty cart with player, email, server, and promo code
all supplied still fails with InvalidInput. -/
theorem create_order_empty_cart_witness :
    create_order emptyStore idO ⟨"Alice", [], some "a@b.c", some "Main", some "NOPE"⟩ =
      (.error (.invalidInput "Cart is empty"), emptyStore) ∧
      (ApiError.invalidInput "Cart is empty").statusCode = 400 :=
  create_order_empty_cart emptyStore idO ⟨"Alice", [], some "a@b.c", some "Main", some "NOPE"⟩ rfl

/-- C4 counterexample: a request with an empty cart and an unmatched promo
code fails with InvalidInput (HTTP 400), not NotFound (HTTP 404), so the
promo disjunct of the claim does not hold for every request. -/
theorem create_order_notFound_claim_cex :
    (create_order emptyStore idO ⟨"Steve", [], none, none, some "NOPE"⟩).1 =
      .error (.invalidInput "Cart is empty") ∧
      (ApiError.invalidInput "Cart is empty").statusCode = 400 := ⟨rfl, rfl⟩

/-- C4 (amended): when some cart rank id does not resolve, or when the
cart is non-empty and a non-blank promo code matches no stored active
promo, order creation fails with NotFound; and on every failure path of
order creation the store is unchanged. -/
theorem create_order_notFound_no_write :
    (∀ (s : Store) (newId : String) (payload : CreateOrder),
      ((∃ it ∈ payload.items, findRankEntry s it.rank_id = none) ∨
       (payload.items ≠ [] ∧ ∃ c, payload.promo_code = some c ∧ c ≠ "" ∧
         findActivePromo s (pyUpper c) = none)) →
      ∃ d, (create_order s newId payload).1 = .error (.notFound d)) ∧
    (∀ (s : Store) (newId : String) (payload : CreateOrder) (e : ApiError),
      (create_order s newId payload).1 = .error e →
      (create_order s newId payload).2 = s) := by
  constructor
  · intro s newId payload h
    rcases h with h1 | ⟨hne, c, hpc, hcne, hfp⟩
    · obtain ⟨it, hit, _⟩ := h1
      have hne : payload.items ≠ [] := List.ne_nil_of_mem hit
      have he : payload.items.isEmpty = false := isEmpty_false_of_ne_nil _ hne
      obtain ⟨d, hd⟩ := priceItems_err_of_unresolved s payload.items ⟨it, hit, by assumption⟩
      exact ⟨d, by simp [create_order, he, hd]⟩
    · have he : payload.items.isEmpty = false := isEmpty_false_of_ne_nil _ hne
      cases hpi : priceItems s payload.items with
      | error e =>
        obtain ⟨d, hd⟩ := priceItems_error_notFound s payload.items e hpi
        exact ⟨d, by simp [create_order, he, hpi, hd]⟩
      | ok pr =>
        obtain ⟨l, t⟩ := pr
        exact ⟨"Promo not found or inactive",
          by simp [create_order, he, hpi, hpc, if_neg hcne, hfp]⟩
  · intro s newId payload e h
    cases hEmp : payload.items.isEmpty with
    | true => simp [create_order, hEmp]
    | false =>
      cases hpi : priceItems s payload.items with
      | error e' => simp [create_order, hEmp, hpi]
      | ok pr =>
        obtain ⟨l, t⟩ := pr
        cases hpc : payload.promo_code with
        | none => simp [create_order, hEmp, hpi, hpc] at h
        | some c =>
          by_cases hc : c = ""
          · simp [create_order, hEmp, hpi, hpc, hc] at h
          · cases hfp : findActivePromo s (pyUpper c) with
            | none => simp [create_order, hEmp, hpi, hpc, if_neg hc, hfp]
            | some promo => simp [create_order, hEmp, hpi, hpc, if_neg hc, hfp] at h

/-- C4 witness: a cart referencing an id with no stored rank fails with
NotFound and leaves the store unchanged. -/
theorem create_order_notFound_no_write_witness :
    (∃ d, (create_order wStore idO ⟨"Steve", [⟨idO, 1⟩], none, none, none⟩).1 =
      .error (.notFound d)) ∧
    (create_order wStore idO ⟨"Steve", [⟨idO, 1⟩], none, none, none⟩).2 = wStore := by
  obtain ⟨d, hd⟩ := create_order_notFound_no_write.1 wStore idO
    ⟨"Steve", [⟨idO, 1⟩], none, none, none⟩ (Or.inl ⟨⟨idO, 1⟩, by simp, by decide⟩)
  exact ⟨⟨d, hd⟩, create_order_notFound_no_write.2 wStore idO _ _ hd⟩

/-- C10: a promo code that is `None` or the empty string is treated as no
promo: creation succeeds on an otherwise valid cart, the amount is the
undiscounted total, the stored promo-code field is absent, and no
NotFound is raised. -/
theorem create_order_blank_promo (s : Store) (newId : String) (payload : CreateOrder)
    (hne : payload.items ≠ [])
    (hres : ∀ it ∈ payload.items, (findRankEntry s it.rank_id).isSome = true)
    (hp : payload.promo_code = none ∨ payload.promo_code = some "") :
    ∃ o, (create_order s newId payload).1 = Except.ok o ∧
      o.amount = cartSum s payload.items ∧ o.promo_code = none := by
  obtain ⟨l, hl⟩ := priceItems_ok s payload.items hres
  have he : payload.items.isEmpty = false := isEmpty_false_of_ne_nil _ hne
  rcases hp with hp | hp
  · simp only [create_order, he, Bool.false_eq_true, if_false, hl, hp]
    exact ⟨_, rfl, rfl, rfl⟩
  · simp only [create_order, he, Bool.false_eq_true, if_false, hl, hp, if_pos rfl]
    exact ⟨_, rfl, rfl, rfl⟩

/-- C10 witness: the 597 cart with promo code `""` succeeds with amount
597 and no stored promo code. -/
theorem create_order_blank_promo_witness :
    ∃ o, (create_order wStore idO ⟨"Steve", cart1, none, none, some ""⟩).1 = Except.ok o ∧
      o.amount = 597 ∧ o.promo_code = none := by
  obtain ⟨o, h1, h2, h3⟩ := create_order_blank_promo wStore idO
    ⟨"Steve", cart1, none, none, some ""⟩ (by decide) (by decide) (Or.inr rfl)
  exact ⟨o, h1, by rw [h2]; exact cartSum_w, h3⟩

/-! ### Pay, seed, and promo claims -/

/-- A stored pending order used by pay witnesses. -/
def order0 : Order := ⟨"Steve", [⟨idA, 2, 149⟩], 597, "RUB", .pending, none, none, none⟩

/-- A store holding the single pending order `order0` under id `idO`. -/
def pStore : Store := ⟨[], [], [(idO, order0)]⟩

/-- C5: pay on a stored order succeeds and returns the order at status
paid; a second pay on the same id succeeds again with the same result and
the same store, so pay is idempotent. -/
theorem pay_idempotent (s : Store) (id : String) (o : Order)
    (hv : isValidObjectId id = true) (hl : lookupOrder s id = some o) :
    (simulate_pay s id).1 = .ok (paySet o) ∧
    (paySet o).status = .paid ∧
    lookupOrder (simulate_pay s id).2 id = some (paySet o) ∧
    simulate_pay (simulate_pay s id).2 id = (.ok (paySet o), (simulate_pay s id).2) := by
  have hl' : (s.orders.find? (fun p => p.1 == normId id)).map (·.2) = some o := hl
  obtain ⟨l1, l2, hdec, hno⟩ := find?_map_decomp s.orders (normId id) o hl'
  have hupd : findOneAndUpdateOrder paySet (normId id) s.orders =
      (some (paySet o), l1 ++ (normId id, paySet o) :: l2) := by
    rw [hdec, fOAU_append_no_match _ _ _ _ hno, fOAU_cons_match]
  have hpay1 : simulate_pay s id =
      (.ok (paySet o), { s with orders := l1 ++ (normId id, paySet o) :: l2 }) := by
    simp [simulate_pay, hv, hupd]
  have hfind2 : (l1 ++ (normId id, paySet o) :: l2).find? (fun p => p.1 == normId id) =
      some (normId id, paySet o) := by
    rw [find?_append_no_match _ _ _ hno, List.find?_cons_of_pos]
    exact beq_self_eq_true _
  have hupd2 : findOneAndUpdateOrder paySet (normId id) (l1 ++ (normId id, paySet o) :: l2) =
      (some (paySet o), l1 ++ (normId id, paySet o) :: l2) := by
    rw [fOAU_append_no_match _ _ _ _ hno, fOAU_cons_match, paySet_idem]
  refine ⟨by rw [hpay1], rfl, ?_, ?_⟩
  · rw [hpay1]
    show ((l1 ++ (normId id, paySet o) :: l2).find? (fun p => p.1 == normId id)).map (·.2) =
      some (paySet o)
    rw [hfind2]
    rfl
  · rw [hpay1]
    simp [simulate_pay, hv, hupd2]

/-- C5 witness: paying the stored order `order0` twice succeeds both times
with status paid and no change on the second pay. -/
theorem pay_idempotent_witness :
    (simulate_pay pStore idO).1 = .ok (paySet order0) ∧
    (paySet order0).status = .paid ∧
    lookupOrder (simulate_pay pStore idO).2 idO = some (paySet order0) ∧
    simulate_pay (simulate_pay pStore idO).2 idO =
      (.ok (paySet order0), (simulate_pay pStore idO).2) :=
  pay_idempotent pStore idO order0 (by decide) (by decide)

/-- C6: pay fails with InvalidInput exactly when the id is malformed, and
with NotFound exactly when the id is well-formed but no stored order has
it; both failures leave the store unchanged. -/
theorem pay_error_cases (s : Store) (id : String) :
    ((simulate_pay s id).1 = .error (.invalidInput "Invalid order id") ↔
      isValidObjectId id = false) ∧
    ((simulate_pay s id).1 = .error (.notFound "Order not found") ↔
      (isValidObjectId id = true ∧ lookupOrder s id = none)) ∧
    (∀ e, (simulate_pay s id).1 = .error e → (simulate_pay s id).2 = s) := by
  cases hv : isValidObjectId id with
  | false =>
    have h1 : simulate_pay s id = (.error (.invalidInput "Invalid order id"), s) := by
      simp [simulate_pay, hv]
    rw [h1]
    exact ⟨by simp, by simp [hv], fun e _ => rfl⟩
  | true =>
    cases hfind : s.orders.find? (fun p => p.1 == normId id) with
    | none =>
      have hupd := fOAU_none_of_find_none paySet (normId id) s.orders hfind
      have h1 : simulate_pay s id = (.error (.notFound "Order not found"), s) := by
        simp [simulate_pay, hv, hupd]
      have hlook : lookupOrder s id = none := by
        show (s.orders.find? (fun p => p.1 == normId id)).map (·.2) = none
        rw [hfind]
        rfl
      rw [h1]
      exact ⟨by simp, by simp [hv, hlook], fun e _ => rfl⟩
    | some entry =>
      have hl' : (s.orders.find? (fun p => p.1 == normId id)).map (·.2) = some entry.2 := by
        rw [hfind]
        rfl
      obtain ⟨l1, l2, hdec, hno⟩ := find?_map_decomp s.orders (normId id) entry.2 hl'
      have hupd : findOneAndUpdateOrder paySet (normId id) s.orders =
          (some (paySet entry.2), l1 ++ (normId id, paySet entry.2) :: l2) := by
        rw [hdec, fOAU_append_no_match _ _ _ _ hno, fOAU_cons_match]
      have h1 : (simulate_pay s id).1 = .ok (paySet entry.2) := by
        simp [simulate_pay, hv, hupd]
      have hlook : lookupOrder s id = some entry.2 := hl'
      refine ⟨by rw [h1]; simp [hv], by rw [h1]; simp [hv, hlook], fun e he => ?_⟩
      rw [h1] at he
      cases he

/-- C6 witness: a malformed id (`zz`) fails InvalidInput; a well-formed id
with no stored order fails NotFound. -/
theorem pay_error_cases_witness :
    (simulate_pay emptyStore "zz").1 = .error (.invalidInput "Invalid order id") ∧
    (simulate_pay emptyStore idO).1 = .error (.notFound "Order not found") :=
  ⟨(pay_error_cases emptyStore "zz").1.mpr (by decide),
   (pay_error_cases emptyStore idO).2.1.mpr ⟨by decide, rfl⟩⟩

/-- C7: a successful pay replaces exactly one stored entry, the ranks and
promos collections and all other orders are untouched, and the updated
order agrees with the old one on every field except status, which becomes
paid. -/
theorem pay_frame (s : Store) (id : String) (o : Order)
    (hv : isValidObjectId id = true) (hl : lookupOrder s id = some o) :
    ∃ l1 l2, s.orders = l1 ++ (normId id, o) :: l2 ∧
      (simulate_pay s id).2.orders = l1 ++ (normId id, paySet o) :: l2 ∧
      (simulate_pay s id).2.ranks = s.ranks ∧
      (simulate_pay s id).2.promos = s.promos ∧
      (paySet o).player = o.player ∧ (paySet o).items = o.items ∧
      (paySet o).amount = o.amount ∧ (paySet o).currency = o.currency ∧
      (paySet o).email = o.email ∧ (paySet o).server = o.server ∧
      (paySet o).promo_code = o.promo_code ∧ (paySet o).status = .paid := by
  have hl' : (s.orders.find? (fun p => p.1 == normId id)).map (·.2) = some o := hl
  obtain ⟨l1, l2, hdec, hno⟩ := find?_map_decomp s.orders (normId id) o hl'
  have hupd : findOneAndUpdateOrder paySet (normId id) s.orders =
      (some (paySet o), l1 ++ (normId id, paySet o) :: l2) := by
    rw [hdec, fOAU_append_no_match _ _ _ _ hno, fOAU_cons_match]
  have hpay1 : simulate_pay s id =
      (.ok (paySet o), { s with orders := l1 ++ (normId id, paySet o) :: l2 }) := by
    simp [simulate_pay, hv, hupd]
  exact ⟨l1, l2, hdec, by rw [hpay1], by rw [hpay1], by rw [hpay1],
    rfl, rfl, rfl, rfl, rfl, rfl, rfl, rfl⟩

/-- C7 witness: paying `order0` in `pStore` changes only its status. -/
theorem pay_frame_witness :
    ∃ l1 l2, pStore.orders = l1 ++ (normId idO, order0) :: l2 ∧
      (simulate_pay pStore idO).2.orders = l1 ++ (normId idO, paySet order0) :: l2 ∧
      (simulate_pay pStore idO).2.ranks = pStore.ranks ∧
      (simulate_pay pStore idO).2.promos = pStore.promos ∧
      (paySet order0).player = order0.player ∧ (paySet order0).items = order0.items ∧
      (paySet order0).amount = order0.amount ∧ (paySet order0).currency = order0.currency ∧
      (paySet order0).email = order0.email ∧ (paySet order0).server = order0.server ∧
      (paySet order0).promo_code = order0.promo_code ∧ (paySet order0).status = .paid :=
  pay_frame pStore idO order0 (by decide) (by decide)

/-- C8: seeding an empty store yields exactly 3 ranks and exactly 1 promo
with code START, seeding again changes nothing, and seed writes nothing
whenever at least one rank already exists. -/
theorem seed_idempotent :
    (∀ i1 i2 i3 j1 j2 j3 : String,
      (seed_ranks emptyStore i1 i2 i3).1.ranks.length = 3 ∧
      ((seed_ranks emptyStore i1 i2 i3).1.promos.filter
        (fun p => p.code == "START")).length = 1 ∧
      (seed_ranks (seed_ranks emptyStore i1 i2 i3).1 j1 j2 j3).1 =
        (seed_ranks emptyStore i1 i2 i3).1) ∧
    (∀ (s : Store) (i1 i2 i3 : String), 0 < s.ranks.length →
      seed_ranks s i1 i2 i3 = (s, "Ranks already exist")) := by
  constructor
  · exact fun i1 i2 i3 j1 j2 j3 => ⟨rfl, rfl, rfl⟩
  · intro s i1 i2 i3 h
    rw [seed_ranks, if_pos h]

/-- C8 witness: one seed then a second on the result is a no-op, and seed
on a store already holding a rank writes nothing. -/
theorem seed_idempotent_witness :
    (seed_ranks (seed_ranks emptyStore "a" "b" "c").1 "d" "e" "f").1 =
      (seed_ranks emptyStore "a" "b" "c").1 ∧
    seed_ranks ⟨[(idA, rankA)], [], []⟩ "a" "b" "c" =
      (⟨[(idA, rankA)], [], []⟩, "Ranks already exist") :=
  ⟨(seed_idempotent.1 "a" "b" "c" "d" "e" "f").2.2,
   seed_idempotent.2 ⟨[(idA, rankA)], [], []⟩ "a" "b" "c" (by decide)⟩

/-- C9 counterexample: `create_promo` stores the code verbatim, so a promo
created with the lower-case code `start` cannot be found again — looking
it up with exactly the casing it was created with already fails. -/
theorem promo_lookup_case_cex :
    get_promo (create_promo emptyStore ⟨"start", 5, true⟩).1 "start" =
      .error (.notFound "Promo not found") := by decide

/-- C9 (amended): promo lookup upper-cases the query code while
`create_promo` stores the code verbatim; hence for every promo whose
stored code equals the upper-cased query, lookup succeeds — in
particular a promo created with an upper-case code is found under every
casing of it. -/
theorem promo_lookup_uppercase (s : Store) (payload : Promo) (c' : String)
    (h : pyUpper c' = payload.code) :
    ∃ p, get_promo (create_promo s payload).1 c' = .ok p ∧ p.code = payload.code := by
  show ∃ p, get_promo { s with promos := s.promos ++ [payload] } c' = .ok p ∧
    p.code = payload.code
  rw [get_promo]
  cases hq : s.promos.find? (fun p => p.code == pyUpper c') with
  | some q =>
    have hqc : q.code = payload.code := by
      have := List.find?_some hq
      rw [← h]
      exact beq_iff_eq.mp this
    rw [List.find?_append, hq]
    exact ⟨q, rfl, hqc⟩
  | none =>
    have hp : (payload.code == pyUpper c') = true := by
      rw [h]
      exact beq_self_eq_true _
    have hfind : List.find? (fun p => p.code == pyUpper c') [payload] = some payload := by
      simp [List.find?_cons, hp]
    rw [List.find?_append, hq]
    simp only [Option.none_or]
    rw [hfind]
    exact ⟨payload, rfl, rfl⟩

/-- C9 witness: the seeded upper-case promo `START` is found under the
casing `start`. -/
theorem promo_lookup_uppercase_witness :
    pyUpper "start" = startPromo.code ∧
    ∃ p, get_promo (create_promo emptyStore startPromo).1 "start" = .ok p ∧
      p.code = startPromo.code :=
  ⟨by decide, promo_lookup_uppercase emptyStore startPromo "start" (by decide)⟩

end Autodonate
